import Mathlib

/-!
Verification development for the Modbus serial client engine
(`rtubufferedport.js`, `index.js`, promise API).

Byte buffers are modelled as `List Nat` of byte values; out-of-range reads
return 0, matching JavaScript's `undefined` coerced by the bitwise
operations used in the decoders.
-/

namespace ModbusSerial

/-- `Buffer.readUInt8`-style access: `data[i]`, 0 when out of range
(`undefined` coerced through `& 1`, `>> 1` etc.). -/
def readU8 (data : List Nat) (i : Nat) : Nat := data.getD i 0

/-- `Buffer.readUInt16BE data i` = big-endian 16-bit read. -/
def readU16BE (data : List Nat) (i : Nat) : Nat :=
  256 * data.getD i 0 + data.getD (i + 1) 0

/-- `Buffer.readUInt16LE data i` = little-endian 16-bit read. -/
def readU16LE (data : List Nat) (i : Nat) : Nat :=
  data.getD i 0 + 256 * data.getD (i + 1) 0

/-- Bytes of `Buffer.writeUInt16BE v`. -/
def u16be (v : Nat) : List Nat := [v / 256 % 256, v % 256]

/-- Bytes of `Buffer.writeUInt16LE v`. -/
def u16le (v : Nat) : List Nat := [v % 256, v / 256 % 256]

/-- Modelled from the spec: the CRC16 codec (`utils/crc16`) is required from
the sources but not included in them.  §4.1: "initial register 0xFFFF,
polynomial 0xA001, byte-wise LSB-first, emitted low byte first on the
wire."  This is the inner loop of eight shift steps for one byte. -/
def crc16Step (crc : Nat) : Nat → Nat
  | 0 => crc
  | k + 1 => crc16Step (if crc % 2 = 1 then (crc / 2) ^^^ 0xA001 else crc / 2) k

/-- Modelled from the spec: `crc16(bytes) → uint16`, folding `crc16Step`
over the bytes starting from seed 0xFFFF (spec §4.1). -/
def crc16 (bytes : List Nat) : Nat :=
  bytes.foldl (fun crc b => crc16Step (crc ^^^ b) 8) 0xFFFF

/-- Append the CRC of `body` in little-endian order, as every encoder does
with `buf.writeUInt16LE(crc16(buf.slice(0, -2)), codeLength)`. -/
def crcAppend (body : List Nat) : List Nat := body ++ u16le (crc16 body)

/-- Frame built by `writeFC4` (and `writeFC3`, which calls it with
`code = 3`): unit address, function code, 16-bit data address, 16-bit
quantity, CRC. -/
def writeFC4frame (address code dataAddress length : Nat) : List Nat :=
  crcAppend ([address % 256, code % 256] ++ u16be dataAddress ++ u16be length)

/-- Frame built by `writeFC5`: unit address, code 5, 16-bit data address,
0xFF00 for true / 0x0000 for false, CRC. -/
def writeFC5frame (address dataAddress : Nat) (state : Bool) : List Nat :=
  crcAppend ([address % 256, 5] ++ u16be dataAddress ++
    (if state then u16be 0xFF00 else u16be 0))

/-- Frame built by `writeFC7`: unit address, code 7, CRC (4 bytes total,
`codeLength = 2` plus 2 CRC bytes). -/
def writeFC7frame (address : Nat) : List Nat :=
  crcAppend [address % 256, 7]

/-- The register list built by `_readFC3or4`: `for (i = 0; i < length;
i += 2) push(data.readUInt16BE(i + 3))` — the iterations are `i = 2k` for
`k < ⌈length / 2⌉`. -/
def readRegs (data : List Nat) (length : Nat) : List Nat :=
  (List.range ((length + 1) / 2)).map (fun k => readU16BE data (2 * k + 3))

/-- Result shape `{ data, buffer }` delivered by `_readFC3or4`. -/
structure ReadRegisterResult where
  data : List Nat
  buffer : List Nat
deriving DecidableEq

/-- `_readFC3or4`: byte count at offset 2, registers as big-endian u16
from offset 3; `buffer` is `data.slice(3, 3 + length)`. -/
def readFC3or4 (data : List Nat) : ReadRegisterResult :=
  ⟨readRegs data (readU8 data 2), (data.drop 3).take (readU8 data 2)⟩

/-- The inner loop of `_readFC2`: push `(reg & 1) === 1`, then
`reg = reg >> 1`, `k` times. -/
def bitsOfByte : Nat → Nat → List Bool
  | _, 0 => []
  | reg, k + 1 => decide (reg &&& 1 = 1) :: bitsOfByte (reg >>> 1) k

/-- The outer loop of `_readFC2`: bytes `data[3] .. data[3+n-1]`, each
expanded into 8 bits, in order. -/
def readFC2bits (data : List Nat) : Nat → List Bool
  | 0 => []
  | n + 1 => readFC2bits data n ++ bitsOfByte (readU8 data (n + 3)) 8

/-- Result shape `{ data, buffer }` delivered by `_readFC2`. -/
structure ReadCoilResult where
  data : List Bool
  buffer : List Nat
deriving DecidableEq

/-- `_readFC2` (serves FC1 and FC2): byte count at offset 2, each bitmap
byte expanded into 8 booleans; `buffer` is `data.slice(3, 3 + length)`. -/
def readFC2 (data : List Nat) : ReadCoilResult :=
  ⟨readFC2bits data (readU8 data 2), (data.drop 3).take (readU8 data 2)⟩

/-- `Buffer.toString("ascii", ...)` over a byte list: Node's ascii decoder
masks each byte to 7 bits. -/
def asciiString (bytes : List Nat) : String :=
  String.mk (bytes.map (fun b => Char.ofNat (b % 128)))

/-- The object loop of `_readFC43`: starting at `startAt`, read `n` records
of `[objectId][objectLength][objectLength ascii bytes]`. -/
def fc43Objects (data : List Nat) : Nat → Nat → List (Nat × String)
  | _, 0 => []
  | startAt, n + 1 =>
    (readU8 data startAt,
      asciiString ((data.drop (startAt + 2)).take (readU8 data (startAt + 1))))
      :: fc43Objects data (startAt + 2 + readU8 data (startAt + 1)) n

/-- The header fields and object list read by `_readFC43`. -/
structure FC43Response where
  address : Nat
  deviceIdCode : Nat
  conformityLevel : Nat
  moreFollows : Nat
  nextObjectId : Nat
  numObjects : Nat
  objects : List (Nat × String)
deriving DecidableEq

/-- Field extraction of `_readFC43`: address at 0, readDeviceIdCode at 3,
conformityLevel at 4, moreFollows at 5, nextObjectId at 6, numOfObjects
at 7, then the TLV records from offset 8. -/
def parseFC43 (data : List Nat) : FC43Response :=
  { address := readU8 data 0
    deviceIdCode := readU8 data 3
    conformityLevel := readU8 data 4
    moreFollows := readU8 data 5
    nextObjectId := readU8 data 6
    numObjects := readU8 data 7
    objects := fc43Objects data 8 (readU8 data 7) }

/-- Association-list lookup for a JS object keyed by object id. -/
def objLookup (m : List (Nat × String)) (k : Nat) : Option String :=
  (m.find? (fun p => p.1 = k)).map (fun p => p.2)

/-- `Object.assign(target, source)`: keys of `source` overwrite those of
`target`; keys new to `target` are appended. -/
def objAssign (target source : List (Nat × String)) : List (Nat × String) :=
  (target.map (fun p =>
    match source.find? (fun q => q.1 = p.1) with
    | some q => q
    | none => p))
  ++ source.filter (fun q => !(target.any (fun p => p.1 = q.1)))

/-- The FC43 continuation driver of `_readFC43`: each round consumes the
next response frame.  When `moreFollows && numOfObjects` the driver issues
`writeFC43(address, readDeviceIdCode, nextObjectId, cb)` — recorded as a
request triple — and `cb` merges this round's objects into the inner
result with `Object.assign(data.data, result)`.  Otherwise it delivers
`{ data: result, conformityLevel }`.  The first component is the delivered
result (`none` when the chain never terminates within the supplied
responses); the second lists the follow-up requests issued. -/
def fc43Run : List (List Nat) → Option (List (Nat × String) × Nat) × List (Nat × Nat × Nat)
  | [] => (none, [])
  | data :: rest =>
    let p := parseFC43 data
    if p.moreFollows ≠ 0 ∧ p.numObjects ≠ 0 then
      let inner := fc43Run rest
      let res := match inner.1 with
        | none => none
        | some (m, cl) => some (objAssign m p.objects, cl)
      (res, (p.address, p.deviceIdCode, p.nextObjectId) :: inner.2)
    else
      (some (p.objects, p.conformityLevel), [])

/-! ## The transaction engine (`index.js`) -/

/-- The fixed table `modbusErrorMessages`. -/
def modbusErrorMessages : List String :=
  [ "Unknown error",
    "Illegal function (device does not support this read/write function)",
    "Illegal data address (register not supported by device)",
    "Illegal data value (value cannot be written to this register)",
    "Slave device failure (device reports internal error)",
    "Acknowledge (requested data will be available later)",
    "Slave device busy (retry request again later)",
    "Negative acknowledge (device cannot perform action)",
    "Memory parity error (failed to read from memory)",
    "Gateway path unavailable",
    "Gateway target device failed to respond" ]

/-- `modbusErrorMessages[errorCode] || "Unknown error"`. -/
def modbusErrorMessage (e : Nat) : String :=
  (modbusErrorMessages.get? e).getD "Unknown error"

/-- Transaction slot state: the fields of
`this._transactions[transactionId]` used by `_onReceive`,
`_writeBufferToPort` and `_startTimeout`.  `nextLength = none` models an
`undefined` expected length (as set by `writeFC43`); `timeoutArmed` models
`_timeoutHandle !== undefined` with a live timer. -/
structure Trans where
  nextAddress : Nat
  nextCode : Nat
  nextLength : Option Nat
  lengthUnknown : Bool
  timeoutFired : Bool
  timeoutArmed : Bool
deriving DecidableEq

/-- Engine state: the single transaction slot (the port's
`_transactionIdRead` and `_transactionIdWrite` both stay 1 for the
buffered serial port, so one slot suffices) and the configured `_timeout`
(`none` models `null`).  The Enron option is left at its default
(disabled), so the Enron table check in `_onReceive` never fires. -/
structure Engine where
  slot : Option Trans
  timeout : Option Nat
deriving DecidableEq

/-- Callback deliveries observable by the caller. -/
inductive CbOut where
  | emptySuccess
  | success
  | followUp (address deviceIdCode nextObjectId : Nat)
  | timedOut
  | errLength
  | errCRC
  | errAddress
  | errCode
  | exception (code : Nat) (message : String)
deriving DecidableEq

/-- `_startTimeout` arms a live timer only when the duration is truthy:
`if (!duration) return undefined`. -/
def startTimeoutArms (duration : Option Nat) : Bool :=
  match duration with
  | none => false
  | some d => decide (d ≠ 0)

/-- Slot population plus `_writeBufferToPort`: the slot is overwritten;
the timeout is armed only when `nextLength > 0` (and the configured
duration is truthy); when `nextLength === 0` the callback is invoked
immediately with an empty success result.  The slot is not cleared. -/
def Engine.submit (eng : Engine) (address code : Nat) (len : Option Nat)
    (lenUnknown : Bool) : Engine × List CbOut :=
  let armed := (match len with
    | some l => decide (0 < l)
    | none => false) && startTimeoutArms eng.timeout
  let t : Trans :=
    { nextAddress := address, nextCode := code, nextLength := len,
      lengthUnknown := lenUnknown, timeoutFired := false, timeoutArmed := armed }
  ({ eng with slot := some t },
    if len = some 0 then [CbOut.emptySuccess] else [])

/-- The decoder dispatch at the end of `_onReceive`: switch over the
received function code.  For FC43 the decoder either issues a follow-up
request (no callback this round) or delivers; the other decoders always
invoke the callback once. -/
def dispatchDecode (data : List Nat) (code : Nat) : List CbOut :=
  if code = 43 then
    let p := parseFC43 data
    if p.moreFollows ≠ 0 ∧ p.numObjects ≠ 0 then
      [CbOut.followUp p.address p.deviceIdCode p.nextObjectId]
    else [CbOut.success]
  else if code = 1 ∨ code = 2 ∨ code = 3 ∨ code = 4 ∨ code = 5 ∨ code = 6
      ∨ code = 7 ∨ code = 15 ∨ code = 16 ∨ code = 20 ∨ code = 65 then
    [CbOut.success]
  else []

/-- `_onReceive`: look up the transaction (drop the frame when none),
cancel the timeout, drop when the `timeoutFired` latch is set, then
validate minimal length, CRC, exception function code, length, address
and function code in the source's order, and finally dispatch to the
decoder. -/
def Engine.receive (eng : Engine) (data : List Nat) : Engine × List CbOut :=
  match eng.slot with
  | none => (eng, [])
  | some t0 =>
    let t := { t0 with timeoutArmed := false }
    let eng1 : Engine := { eng with slot := some t }
    if t.timeoutFired then (eng1, [])
    else if t.lengthUnknown = false ∧ data.length < 5 then
      (eng1, [CbOut.errLength])
    else if readU16LE data (data.length - 2) ≠ crc16 (data.take (data.length - 2)) then
      (eng1, [CbOut.errCRC])
    else if 5 ≤ data.length ∧ readU8 data 1 = 0x80 ||| t.nextCode then
      (eng1, [CbOut.exception (readU8 data 2) (modbusErrorMessage (readU8 data 2))])
    else if t.lengthUnknown = false ∧ some data.length ≠ t.nextLength then
      (eng1, [CbOut.errLength])
    else if readU8 data 0 ≠ t.nextAddress then (eng1, [CbOut.errAddress])
    else if readU8 data 1 ≠ t.nextCode then (eng1, [CbOut.errCode])
    else (eng1, dispatchDecode data (readU8 data 1))

/-- The timeout callback of `_startTimeout` firing: only possible while a
live timer is armed; it sets the `timeoutFired` latch and calls back with
`TransactionTimedOutError`. -/
def Engine.fireTimeout (eng : Engine) : Engine × List CbOut :=
  match eng.slot with
  | none => (eng, [])
  | some t =>
    if t.timeoutArmed then
      ({ eng with slot := some { t with timeoutFired := true, timeoutArmed := false } },
        [CbOut.timedOut])
    else (eng, [])

/-- Events driving the engine. -/
inductive Event where
  | submit (address code : Nat) (len : Option Nat) (lenUnknown : Bool)
  | receive (data : List Nat)
  | fireTimeout

/-- One engine step. -/
def Engine.step (eng : Engine) : Event → Engine × List CbOut
  | Event.submit a c l u => eng.submit a c l u
  | Event.receive d => eng.receive d
  | Event.fireTimeout => eng.fireTimeout

/-- Run a sequence of events, collecting all callback deliveries. -/
def Engine.run (eng : Engine) : List Event → Engine × List CbOut
  | [] => (eng, [])
  | e :: es =>
    let s1 := eng.step e
    let s2 := s1.1.run es
    (s2.1, s1.2 ++ s2.2)

/-- Effects of one `writeFC*` call: engine state, bytes handed to
`port.write`, immediate callback deliveries. -/
structure WriteResult where
  eng : Engine
  frame : List Nat
  cbs : List CbOut
deriving DecidableEq

/-- `writeFC5` (port open, address defined): response length 8, or 0 for
the broadcast address; slot populated; frame written;
`_writeBufferToPort` behaviour via `Engine.submit`. -/
def Engine.writeFC5 (eng : Engine) (address dataAddress : Nat) (state : Bool) :
    WriteResult :=
  let responseLength := if address = 0 then 0 else 8
  let s := eng.submit address 5 (some responseLength) false
  ⟨s.1, writeFC5frame address dataAddress state, s.2⟩

/-! ## The RTU stream reassembler (`rtubufferedport.js`) -/

/-- The loop of `calculateFC43Length`: walk `n` TLV records from
`currentByte`; `none` when `hasAllData` turned false (buffer too short or
a falsy object length). -/
def fc43Walk (buf : List Nat) (bufferLength : Nat) : Nat → Nat → Option Nat
  | 0, currentByte => some currentByte
  | n + 1, currentByte =>
    if bufferLength < currentByte then none
    else if buf.getD (currentByte + 1) 0 = 0 then none
    else fc43Walk buf bufferLength n (currentByte + 2 + buf.getD (currentByte + 1) 0)

/-- `calculateFC43Length(buffer, numObjects, i, bufferLength)`: walk the
TLV chain from `8 + i`, then require room for the CRC; returns
`result.bufLength` when `hasAllData`. -/
def calculateFC43Length (buf : List Nat) (numObjects i bufferLength : Nat) :
    Option Nat :=
  match fc43Walk buf bufferLength numObjects (8 + i) with
  | none => none
  | some currentByte =>
    if bufferLength < currentByte + 2 then none
    else some (currentByte + 2)

/-- State of `RTUBufferedPort`: rolling buffer, remembered unit id,
remembered function code, and expected response length
(`none` = `LENGTH_UNKNOWN`). -/
structure RTUPort where
  buffer : List Nat
  id : Nat
  cmd : Nat
  len : Option Nat
deriving DecidableEq

/-- The body of the scan loop of the port's `onData` handler: one
iteration at offset `i`, with `fuel` bounding the remaining iterations
(structural recursion; the loop itself is bounded by the offset guard
`i ≤ maxOffset = bufferLength - 5`, so any `fuel > buf.length` is
exact).  Result `some (start, length)` is the candidate frame passed to
`_emitData`; `none` means no emission on this chunk (loop exhausted, an
early `return`, or the partial-header `break` on
`functionCode === (0x7f & cmd)`). -/
def scanLoop (id cmd : Nat) (len : Option Nat) (buf : List Nat) :
    Nat → Nat → Option (Nat × Nat)
  | _, 0 => none
  | i, fuel + 1 =>
    if buf.length < i + 5 then none
    else
      let f := buf.getD (i + 1) 0
      if buf.getD i 0 ≠ id then scanLoop id cmd len buf (i + 1) fuel
      else if f = cmd ∧ cmd = 43 then
        if buf.length ≤ 7 + i then none
        else
          match calculateFC43Length buf (buf.getD (7 + i) 0) i buf.length with
          | some bufLength => some (i, bufLength)
          | none =>
            if f = 0x7f &&& cmd then none else scanLoop id cmd len buf (i + 1) fuel
      else if f = cmd ∧ cmd = 20 then
        if buf.length ≤ 3 + i then none
        else
          if 1 + 1 + 1 + buf.getD (2 + i) 0 + 2 ≤ buf.length then
            some (i, 1 + 1 + 1 + buf.getD (2 + i) 0 + 2)
          else
            if f = 0x7f &&& cmd then none else scanLoop id cmd len buf (i + 1) fuel
      else
        if (match len with
            | some l => decide (f = cmd ∧ i + l ≤ buf.length)
            | none => false) then
          some (i, len.getD 0)
        else if f = 0x80 ||| cmd ∧ i + 5 ≤ buf.length then some (i, 5)
        else if f = 0x7f &&& cmd then none
        else scanLoop id cmd len buf (i + 1) fuel

/-- The scan loop started at offset 0 with sufficient fuel. -/
def scanFrom (id cmd : Nat) (len : Option Nat) (buf : List Nat) (i : Nat) :
    Option (Nat × Nat) :=
  scanLoop id cmd len buf i (buf.length + 1 - i)

/-- The scan-and-emit tail of the port's `onData` handler, applied to the
(possibly capped) buffer: on a scan hit, `_emitData` emits
`buffer.slice(start, start + length)` and retains
`buffer.slice(start + length)`; otherwise everything is retained. -/
def onDataScan (s : RTUPort) (buf : List Nat) : RTUPort × Option (List Nat) :=
  match scanFrom s.id s.cmd s.len buf 0 with
  | some (i, l) => ({ s with buffer := buf.drop (i + l) }, some ((buf.drop i).take l))
  | none => ({ s with buffer := buf }, none)

/-- The port's `onData` handler: append the chunk; return early when a
known expected length is below `MIN_DATA_LENGTH` (6) or fewer than
`EXCEPTION_LENGTH` (5) bytes are buffered (the buffer is retained
uncapped in that case); otherwise cap the buffer at `MAX_BUFFER_LENGTH`
(256) keeping the most recent bytes, then scan and possibly emit. -/
def RTUPort.onData (s : RTUPort) (data : List Nat) : RTUPort × Option (List Nat) :=
  if (match s.len with | some l => decide (l < 6) | none => false)
      || decide ((s.buffer ++ data).length < 5) then
    ({ s with buffer := s.buffer ++ data }, none)
  else
    onDataScan s
      (if 256 < (s.buffer ++ data).length then
        (s.buffer ++ data).drop ((s.buffer ++ data).length - 256)
      else s.buffer ++ data)

/-- `RTUBufferedPort.write`: drop the request silently when shorter than
`MIN_DATA_LENGTH` (6); otherwise remember unit id and function code,
compute the expected response length per function code, and hand the data
to the serial client (second component `true`). -/
def RTUPort.write (s : RTUPort) (data : List Nat) : RTUPort × Bool :=
  if data.length < 6 then (s, false)
  else
    let cmd := readU8 data 1
    let len : Option Nat :=
      if cmd = 1 ∨ cmd = 2 then
        -- JS `3 + parseInt((length - 1) / 8 + 1) + 2`: parseInt truncates
        -- toward zero, so quantity 0 contributes 0, not 1.
        some (3 + (if readU16BE data 4 = 0 then 0 else (readU16BE data 4 - 1) / 8 + 1) + 2)
      else if cmd = 3 ∨ cmd = 4 then some (3 + 2 * readU16BE data 4 + 2)
      else if cmd = 5 ∨ cmd = 6 ∨ cmd = 15 ∨ cmd = 16 then some (6 + 2)
      else if cmd = 20 then none
      else if cmd = 43 then none
      else if cmd = 65 then some (4 + 2 * readU8 data 2 + 2)
      else some 0
    ({ buffer := s.buffer, id := readU8 data 0, cmd := cmd, len := len }, true)

/-! ## Concrete scenario data -/

/-- A CRC-valid FC3 response carrying registers 0xAE41, 0x5652
(unit 17, byte count 4). -/
def respFC3 : List Nat := crcAppend [0x11, 0x03, 0x04, 0xAE, 0x41, 0x56, 0x52]

/-- The FC3 response bytes exactly as the specification's Scenario 1
states them (trailing bytes 0x49 0xAD). -/
def respFC3spec : List Nat := [0x11, 0x03, 0x04, 0xAE, 0x41, 0x56, 0x52, 0x49, 0xAD]

/-- A fresh engine with a 1000 ms timeout configured. -/
def engC1 : Engine := ⟨none, some 1000⟩

/-- Submit an FC3 read expecting 9 bytes, then receive the same valid
response frame twice. -/
def evsC1 : List Event :=
  [Event.submit 17 3 (some 9) false, Event.receive respFC3, Event.receive respFC3]

/-- The transaction left by the Scenario 2 read-coils request
(unit 17, FC1, quantity 0x25, expected length 10), timer armed. -/
def transFC1 : Trans := ⟨17, 1, some 10, false, false, true⟩

/-- Engine awaiting the Scenario 2 response. -/
def engExc : Engine := ⟨some transFC1, some 1000⟩

/-- A CRC-valid exception response to an FC1 request: unit 17, function
0x81, exception code `e`. -/
def excFrame (e : Nat) : List Nat := crcAppend [0x11, 0x81, e]

/-! ## C1 — callback fired at most once per transaction -/

set_option maxRecDepth 8000 in
/-- C1 is false as stated: after the callback has fired with a decoded
response, the transaction slot is not cleared, so a second inbound frame
for the same slot fires the callback a second time.  Submitting an FC3
read and then receiving the same valid response frame twice delivers two
`success` callbacks. -/
theorem c1_counterexample :
    (Engine.run engC1 evsC1).2 = [CbOut.success, CbOut.success]
    ∧ ¬((Engine.run engC1 evsC1).2.length ≤ 1) := by decide

/-- C1 amended: the at-most-once guarantee holds for the timeout path
only — once the `timeoutFired` latch is set (the callback has fired with
the timeout error), no later inbound frames for the same transaction
slot, of any content, fire the callback again.  (After a decoded response
or a validation error the slot is left populated and a later frame can
fire the callback again, as the counterexample shows.) -/
theorem c1_amended : ∀ (eng : Engine) (t : Trans) (datas : List (List Nat)),
    eng.slot = some t → t.timeoutFired = true →
    (eng.run (datas.map Event.receive)).2 = [] := by
  intro eng t datas
  induction datas generalizing eng t with
  | nil => intro _ _; rfl
  | cons d ds ih =>
    intro hslot hfired
    have hrecv : eng.receive d
        = ({ eng with slot := some { t with timeoutArmed := false } }, []) := by
      unfold Engine.receive
      rw [hslot]
      simp [hfired]
    simp only [List.map_cons, Engine.run, Engine.step, hrecv, List.nil_append]
    exact ih _ { t with timeoutArmed := false } rfl hfired

/-- Witness for `c1_amended` at a concrete timed-out transaction and one
late valid frame. -/
theorem c1_amended_witness :
    (⟨some ⟨17, 3, some 9, false, true, false⟩, some 1000⟩ : Engine).slot
        = some ⟨17, 3, some 9, false, true, false⟩
    ∧ Trans.timeoutFired ⟨17, 3, some 9, false, true, false⟩ = true
    ∧ (Engine.run ⟨some ⟨17, 3, some 9, false, true, false⟩, some 1000⟩
        ([respFC3].map Event.receive)).2 = [] :=
  ⟨rfl, rfl, c1_amended _ ⟨17, 3, some 9, false, true, false⟩ [respFC3] rfl rfl⟩

/-! ## C2 — Scenario 1 frame bytes -/

set_option maxRecDepth 8000 in
/-- C2 is false as stated: the CRC of `11 03 00 6B 00 02` is 0x47B7
(wire bytes `B7 47`), not `76 87` — the specification's bytes are the CRC
of the classic quantity-3 example.  The encoder does not produce the
claimed frame. -/
theorem c2_counterexample :
    writeFC4frame 17 3 0x6B 2 ≠ [0x11, 0x03, 0x00, 0x6B, 0x00, 0x02, 0x76, 0x87] := by
  decide

set_option maxRecDepth 8000 in
/-- C2 amended: the request frame for unit 17, FC3, address 0x006B,
quantity 2 is `11 03 00 6B 00 02 B7 47`; `_readFC3or4` applied to the
stated response bytes yields registers [0xAE41, 0x5652] (the decoder
never examines the CRC tail); the stated response frame's own trailing
CRC is stale (a CRC-valid response ends `25 53`), and the engine accepts
the CRC-valid variant, delivering a decoded success. -/
theorem c2_amended :
    writeFC4frame 17 3 0x6B 2 = [0x11, 0x03, 0x00, 0x6B, 0x00, 0x02, 0xB7, 0x47]
    ∧ (readFC3or4 respFC3spec).data = [0xAE41, 0x5652]
    ∧ readU16LE respFC3spec (respFC3spec.length - 2)
        ≠ crc16 (respFC3spec.take (respFC3spec.length - 2))
    ∧ respFC3 = [0x11, 0x03, 0x04, 0xAE, 0x41, 0x56, 0x52, 0x25, 0x53]
    ∧ (Engine.receive ⟨some ⟨17, 3, some 9, false, false, true⟩, some 1000⟩ respFC3).2
        = [CbOut.success] := by decide

/-! ## C3 — exception responses -/

set_option maxRecDepth 8000 in
/-- C3 is false as stated: the concrete Scenario 2 frame `11 81 02 C1 91`
does not carry a valid CRC (`crc16(11 81 02) = 0x54C0`, wire `C0 54`), so
`_onReceive` rejects it with a CRC error before the exception branch is
reached; the delivered error is not the ModbusException. -/
theorem c3_counterexample :
    (engExc.receive [0x11, 0x81, 0x02, 0xC1, 0x91]).2 = [CbOut.errCRC]
    ∧ (engExc.receive [0x11, 0x81, 0x02, 0xC1, 0x91]).2
        ≠ [CbOut.exception 2 "Illegal data address (register not supported by device)"] := by
  decide

set_option maxRecDepth 8000 in
/-- C3 amended: for every exception code 1–11, a received frame with
valid CRC carrying function code `0x80 | expectedCode` is reported as an
error with that code and the message looked up in the fixed table
(`modbusErrorMessages[code] || "Unknown error"`, itself an entry of the
table); for the CRC-valid exception response `11 81 02 C0 54` to the
read-coils request, the delivered error has code 2 and message "Illegal
data address (register not supported by device)". -/
theorem c3_amended : ∀ e : Nat, 1 ≤ e → e ≤ 11 →
    ((engExc.receive (excFrame e)).2 = [CbOut.exception e (modbusErrorMessage e)]
      ∧ modbusErrorMessage e ∈ modbusErrorMessages)
    ∧ excFrame 2 = [0x11, 0x81, 0x02, 0xC0, 0x54]
    ∧ (engExc.receive (excFrame 2)).2
        = [CbOut.exception 2 "Illegal data address (register not supported by device)"] := by
  intro e h1 h2
  refine ⟨?_, by decide, by decide⟩
  interval_cases e <;> exact ⟨by decide, by decide⟩

set_option maxRecDepth 8000 in
/-- Witness for `c3_amended` at exception code 2. -/
theorem c3_amended_witness :
    1 ≤ 2 ∧ 2 ≤ 11
    ∧ (((engExc.receive (excFrame 2)).2 = [CbOut.exception 2 (modbusErrorMessage 2)]
        ∧ modbusErrorMessage 2 ∈ modbusErrorMessages)
      ∧ excFrame 2 = [0x11, 0x81, 0x02, 0xC0, 0x54]
      ∧ (engExc.receive (excFrame 2)).2
          = [CbOut.exception 2 "Illegal data address (register not supported by device)"]) :=
  ⟨by decide, by decide, c3_amended 2 (by decide) (by decide)⟩

/-! ## C6 — broadcast FC5 write -/

/-- C6 is false in its last conjunct: after a broadcast FC5 submission
the transaction slot is not cleared — `_writeBufferToPort` invokes the
callback and leaves `this._transactions[id]` populated. -/
theorem c6_counterexample :
    ¬((Engine.writeFC5 ⟨none, some 100⟩ 0 0xAC true).eng.slot = none) := by decide

/-- C6 amended: a broadcast (unit 0) FC5 submission sets the expected
response length to 0, writes the 8-byte frame to the transport, arms no
timeout, and immediately invokes the callback with an empty success
result; the slot is left populated (not cleared) with the unarmed
zero-length transaction. -/
theorem c6_amended : ∀ (eng : Engine) (dataAddress : Nat) (state : Bool),
    (eng.writeFC5 0 dataAddress state).eng.slot
        = some ⟨0, 5, some 0, false, false, false⟩
    ∧ (eng.writeFC5 0 dataAddress state).frame = writeFC5frame 0 dataAddress state
    ∧ (eng.writeFC5 0 dataAddress state).frame.length = 8
    ∧ (eng.writeFC5 0 dataAddress state).cbs = [CbOut.emptySuccess] := by
  intro eng dataAddress state
  refine ⟨by simp [Engine.writeFC5, Engine.submit], rfl, ?_, by simp [Engine.writeFC5, Engine.submit]⟩
  simp only [Engine.writeFC5, writeFC5frame, crcAppend, u16be, u16le]
  cases state <;> simp

/-! ## C4 — FC20 reassembly length -/

/-- Port state remembering an outstanding FC20 request to unit 17. -/
def portFC20 : RTUPort := ⟨[], 0x11, 20, none⟩

/-- C4 is false as stated: the code computes the FC20 total frame length
as `1 + 1 + 1 + buffer[i+2] + 2` (i.e. `buffer[i+2] + 5`), not
`5 + buffer[i+2] + 2` (i.e. `buffer[i+2] + 7`).  With `buffer[2] = 1` a
six-byte buffer is emitted whole, although the claimed formula would
require eight bytes. -/
theorem c4_counterexample :
    (portFC20.onData [0x11, 0x14, 0x01, 0x09, 0x00, 0x00]).2
        = some [0x11, 0x14, 0x01, 0x09, 0x00, 0x00]
    ∧ ((portFC20.onData [0x11, 0x14, 0x01, 0x09, 0x00, 0x00]).2.map List.length)
        = some 6
    ∧ (6 : Nat) ≠ 5 + 0x01 + 2 := by decide

/-- C4 amended: when the remembered function code is 20 and the scan
reaches a candidate header at offset `i` (which guarantees more than
`3 + i` buffered bytes, since the loop bound already requires
`i + 5 ≤ bufferLength`), the total frame length used to decide emission
is `3 + buffer[i+2] + 2` (i.e. `buffer[i+2]` plus 5), and the frame is
emitted exactly when the buffer holds at least that many bytes —
otherwise the scan stops at this header without emitting. -/
theorem c4_amended : ∀ (buf : List Nat) (i id : Nat) (len : Option Nat),
    buf.getD i 0 = id → buf.getD (i + 1) 0 = 20 → i + 5 ≤ buf.length →
    scanFrom id 20 len buf i =
      if 3 + buf.getD (2 + i) 0 + 2 ≤ buf.length then
        some (i, 3 + buf.getD (2 + i) 0 + 2)
      else none := by
  intro buf i id len hu hf hlen
  obtain ⟨fuel, hfuel⟩ : ∃ f, buf.length + 1 - i = f + 1 := ⟨buf.length - i, by omega⟩
  have h1 : ¬(buf.length < i + 5) := by omega
  have h2 : ¬(buf.length ≤ 3 + i) := by omega
  unfold scanFrom
  rw [hfuel]
  simp only [List.getD, List.get?_eq_getElem?] at hu hf
  simp [scanLoop, List.getD, hu, hf, h1, h2,
    show (127 : Nat) &&& 20 = 20 from rfl]

/-- Witness for `c4_amended` at the counterexample buffer. -/
theorem c4_amended_witness :
    ([0x11, 0x14, 0x01, 0x09, 0x00, 0x00] : List Nat).getD 0 0 = 0x11
    ∧ ([0x11, 0x14, 0x01, 0x09, 0x00, 0x00] : List Nat).getD (0 + 1) 0 = 20
    ∧ 0 + 5 ≤ ([0x11, 0x14, 0x01, 0x09, 0x00, 0x00] : List Nat).length
    ∧ scanFrom 0x11 20 none [0x11, 0x14, 0x01, 0x09, 0x00, 0x00] 0
        = if 3 + ([0x11, 0x14, 0x01, 0x09, 0x00, 0x00] : List Nat).getD (2 + 0) 0 + 2
              ≤ ([0x11, 0x14, 0x01, 0x09, 0x00, 0x00] : List Nat).length
          then some (0, 3 + ([0x11, 0x14, 0x01, 0x09, 0x00, 0x00] : List Nat).getD (2 + 0) 0 + 2)
          else none :=
  ⟨by decide, by decide, by decide,
    c4_amended [0x11, 0x14, 0x01, 0x09, 0x00, 0x00] 0 0x11 none
      (by decide) (by decide) (by decide)⟩

/-! ## C5 — 256-byte buffer bound -/

/-- A freshly constructed port: empty buffer, unit 0, command 0,
expected length 0. -/
def portInit : RTUPort := ⟨[], 0, 0, some 0⟩

/-- The early-return branch of `onData`: a known expected length below
`MIN_DATA_LENGTH` skips both the cap and the scan, retaining the
appended buffer as is. -/
theorem onData_earlyReturn (s : RTUPort) (data : List Nat) (l : Nat)
    (h : s.len = some l) (h6 : l < 6) :
    s.onData data = ({ s with buffer := s.buffer ++ data }, none) := by
  rw [RTUPort.onData, h]
  simp [h6]

/-- C5 is false as stated: when the early-return guard fires (here the
known expected length 0 is below `MIN_DATA_LENGTH`), the chunk is
appended and the handler returns before the 256-byte cap is applied, so
a 257-byte chunk leaves a 257-byte buffer. -/
theorem c5_counterexample :
    (portInit.onData (List.replicate 257 0)).1.buffer.length = 257
    ∧ ¬(257 ≤ 256) := by
  refine ⟨?_, by decide⟩
  rw [onData_earlyReturn portInit (List.replicate 257 0) 0 rfl (by decide)]
  show (portInit.buffer ++ List.replicate 257 0).length = 257
  rw [List.length_append, List.length_replicate]
  rfl

set_option maxRecDepth 8000 in
/-- C5 amended: whenever the reassembler actually runs its scan — the
expected length is unknown or at least `MIN_DATA_LENGTH` (6), and at
least 5 bytes are buffered — the retained buffer holds at most 256
bytes, and on overflow (more than 256 buffered bytes) with no frame
emitted, exactly the most recent 256 bytes are retained.  When the
early-return guard fires instead, the appended buffer is retained
uncapped and may exceed 256 bytes, as the counterexample shows. -/
theorem c5_amended : ∀ (s : RTUPort) (data : List Nat),
    (∀ l, s.len = some l → 6 ≤ l) → 5 ≤ s.buffer.length + data.length →
    (s.onData data).1.buffer.length ≤ 256
    ∧ (256 < s.buffer.length + data.length → (s.onData data).2 = none →
        (s.onData data).1.buffer
          = (s.buffer ++ data).drop (s.buffer.length + data.length - 256)) := by
  intro s data hlen h5
  have hlapp : (s.buffer ++ data).length = s.buffer.length + data.length :=
    List.length_append s.buffer data
  have hguard : ((match s.len with
      | some l => decide (l < 6)
      | none => false) || decide ((s.buffer ++ data).length < 5)) = false := by
    have h2 : decide ((s.buffer ++ data).length < 5) = false := by
      rw [decide_eq_false_iff_not, hlapp]
      omega
    rcases h : s.len with _ | l
    · simp only [h, h2, Bool.or_false]
    · have h6 := hlen l h
      simp only [h, h2, Bool.or_false, decide_eq_false_iff_not]
      omega
  rw [RTUPort.onData, hguard]
  simp only [Bool.false_eq_true, if_false]
  by_cases hcap : 256 < (s.buffer ++ data).length
  · rw [if_pos hcap]
    have hlen256 :
        ((s.buffer ++ data).drop ((s.buffer ++ data).length - 256)).length = 256 := by
      rw [List.length_drop]
      omega
    cases hscan : scanFrom s.id s.cmd s.len
        ((s.buffer ++ data).drop ((s.buffer ++ data).length - 256)) 0 with
    | none =>
      rw [onDataScan, hscan]
      refine ⟨le_of_eq hlen256, fun _ _ => ?_⟩
      show (s.buffer ++ data).drop ((s.buffer ++ data).length - 256)
          = (s.buffer ++ data).drop (s.buffer.length + data.length - 256)
      rw [hlapp]
    | some p =>
      obtain ⟨i, l⟩ := p
      rw [onDataScan, hscan]
      refine ⟨?_, fun _ habs => by simp at habs⟩
      simp only [List.length_drop, hlen256]
      omega
  · rw [if_neg hcap]
    rw [hlapp] at hcap
    cases hscan : scanFrom s.id s.cmd s.len (s.buffer ++ data) 0 with
    | none =>
      rw [onDataScan, hscan]
      exact ⟨by rw [hlapp]; omega, fun hc => by omega⟩
    | some p =>
      obtain ⟨i, l⟩ := p
      rw [onDataScan, hscan]
      refine ⟨?_, fun hc => by omega⟩
      simp only [List.length_drop, hlapp]
      omega

/-- Witness for `c5_amended`: a 300-byte chunk received while awaiting a
9-byte FC3 response is capped to 256 bytes. -/
theorem c5_amended_witness :
    (∀ l, (⟨[], 0x11, 3, some 9⟩ : RTUPort).len = some l → 6 ≤ l)
    ∧ 5 ≤ (⟨[], 0x11, 3, some 9⟩ : RTUPort).buffer.length + (List.replicate 300 0).length
    ∧ (RTUPort.onData ⟨[], 0x11, 3, some 9⟩ (List.replicate 300 0)).1.buffer.length ≤ 256 :=
  ⟨fun l h => by obtain rfl : (9 : Nat) = l := Option.some_inj.mp h; decide,
    by rw [List.length_replicate]; omega,
    (c5_amended ⟨[], 0x11, 3, some 9⟩ (List.replicate 300 0)
      (fun l h => by obtain rfl : (9 : Nat) = l := Option.some_inj.mp h; decide)
      (by rw [List.length_replicate]; omega)).1⟩

/-! ## C7 — FC43 continuation -/

/-- Scenario 4, first response: unit 0x11, FC 0x2B, MEI 0x0E,
deviceIdCode 1, conformity 1, moreFollows 0xFF, nextObjectId 0x02,
2 objects 0x00 ↦ "Foo", 0x01 ↦ "Bar", then the CRC tail (the FC43
parser never reads it). -/
def fc43resp1 : List Nat :=
  [0x11, 0x2B, 0x0E, 0x01, 0x01, 0xFF, 0x02, 0x02,
    0x00, 0x03, 0x46, 0x6F, 0x6F, 0x01, 0x03, 0x42, 0x61, 0x72, 0xAA, 0xBB]

/-- Scenario 4, second response: moreFollows 0, 1 object
0x02 ↦ "Baz", then the CRC tail. -/
def fc43resp2 : List Nat :=
  [0x11, 0x2B, 0x0E, 0x01, 0x01, 0x00, 0x00, 0x01,
    0x02, 0x03, 0x42, 0x61, 0x7A, 0xCC, 0xDD]

/-- C7: the FC43 decoder issues a follow-up request — carrying the
response's unit address, readDeviceIdCode and the reported nextObjectId —
exactly when `moreFollows` is nonzero and the response contained at least
one object, and otherwise terminates delivering the accumulated map; for
the two-round scenario the delivered map holds 0 ↦ "Foo", 1 ↦ "Bar",
2 ↦ "Baz" with conformity level 1 and exactly one follow-up request
(unit 0x11, deviceIdCode 1, objectId 2) was issued. -/
theorem c7_theorem :
    (∀ (data : List Nat) (rest : List (List Nat)),
      ((parseFC43 data).moreFollows ≠ 0 ∧ (parseFC43 data).numObjects ≠ 0 →
        ∃ res, fc43Run (data :: rest)
          = (res, ((parseFC43 data).address, (parseFC43 data).deviceIdCode,
              (parseFC43 data).nextObjectId) :: (fc43Run rest).2))
      ∧ (¬((parseFC43 data).moreFollows ≠ 0 ∧ (parseFC43 data).numObjects ≠ 0) →
        fc43Run (data :: rest)
          = (some ((parseFC43 data).objects, (parseFC43 data).conformityLevel), [])))
    ∧ fc43Run [fc43resp1, fc43resp2]
        = (some ([(2, "Baz"), (0, "Foo"), (1, "Bar")], 1), [(0x11, 0x01, 0x02)])
    ∧ objLookup [(2, "Baz"), (0, "Foo"), (1, "Bar")] 0 = some "Foo"
    ∧ objLookup [(2, "Baz"), (0, "Foo"), (1, "Bar")] 1 = some "Bar"
    ∧ objLookup [(2, "Baz"), (0, "Foo"), (1, "Bar")] 2 = some "Baz" := by
  refine ⟨?_, by decide, by decide, by decide, by decide⟩
  intro data rest
  constructor
  · intro h
    exact ⟨_, by simp only [fc43Run]; rw [if_pos h]⟩
  · intro h
    simp only [fc43Run]
    rw [if_neg h]

/-- Witness for `c7_theorem` at the two-round scenario. -/
theorem c7_witness :
    ((parseFC43 fc43resp1).moreFollows ≠ 0 ∧ (parseFC43 fc43resp1).numObjects ≠ 0)
    ∧ ∃ res, fc43Run (fc43resp1 :: [fc43resp2])
        = (res, ((parseFC43 fc43resp1).address, (parseFC43 fc43resp1).deviceIdCode,
            (parseFC43 fc43resp1).nextObjectId) :: (fc43Run [fc43resp2]).2) :=
  ⟨by decide, (c7_theorem.1 fc43resp1 [fc43resp2]).1 (by decide)⟩

/-! ## C8 — short writes are silently dropped -/

/-- C8: the buffered port's `write` returns before sending anything and
before updating any remembered state whenever the frame is shorter than
`MIN_DATA_LENGTH` (6); the FC7 request frame is exactly 4 bytes, so an
FC7 request through this port is never transmitted. -/
theorem c8_theorem :
    (∀ (s : RTUPort) (data : List Nat), data.length < 6 → s.write data = (s, false))
    ∧ (∀ address : Nat, (writeFC7frame address).length = 4)
    ∧ (∀ (s : RTUPort) (address : Nat), s.write (writeFC7frame address) = (s, false)) := by
  have h4 : ∀ address : Nat, (writeFC7frame address).length = 4 := by
    intro address
    rw [writeFC7frame, crcAppend, u16le, List.length_append]
    rfl
  refine ⟨?_, h4, ?_⟩
  · intro s data h
    rw [RTUPort.write, if_pos h]
  · intro s address
    rw [RTUPort.write, if_pos (by rw [h4]; omega)]

/-- Witness for `c8_theorem`: the empty frame is dropped. -/
theorem c8_witness :
    ([] : List Nat).length < 6
    ∧ RTUPort.write ⟨[], 0, 0, some 0⟩ [] = (⟨[], 0, 0, some 0⟩, false) :=
  ⟨by decide, c8_theorem.1 ⟨[], 0, 0, some 0⟩ [] (by decide)⟩

/-! ## C9 — falsy timeout duration arms no timer -/

/-- JS falsiness of the configured `_timeout` (`null`, i.e. `none`, or
`0`). -/
def falsyTimeout (d : Option Nat) : Prop := d = none ∨ d = some 0

/-- No live timer is armed in the slot. -/
def slotUnarmed (eng : Engine) : Prop :=
  ∀ t, eng.slot = some t → t.timeoutArmed = false

/-- `_startTimeout` with a falsy duration returns `undefined`. -/
theorem startTimeoutArms_falsy {d : Option Nat} (h : falsyTimeout d) :
    startTimeoutArms d = false := by
  rcases h with h | h <;> rw [h] <;> rfl

/-- No engine step changes the configured timeout duration. -/
theorem step_timeout_eq (eng : Engine) (e : Event) :
    (eng.step e).1.timeout = eng.timeout := by
  obtain ⟨os, tmo⟩ := eng
  cases e with
  | submit a c l u => rfl
  | receive d =>
    cases os with
    | none => rfl
    | some t0 =>
      show (Engine.receive ⟨some t0, tmo⟩ d).1.timeout = tmo
      simp only [Engine.receive]
      split_ifs <;> rfl
  | fireTimeout =>
    cases os with
    | none => rfl
    | some t =>
      show (Engine.fireTimeout ⟨some t, tmo⟩).1.timeout = tmo
      simp only [Engine.fireTimeout]
      split_ifs <;> rfl

/-- The decoder dispatch never delivers the timeout error. -/
theorem dispatchDecode_no_timedOut (data : List Nat) (code : Nat) :
    CbOut.timedOut ∉ dispatchDecode data code := by
  simp only [dispatchDecode]
  split_ifs <;> simp

/-- A step from a state with no armed timer never delivers the timeout
error. -/
theorem step_no_timedOut {eng : Engine} (hu : slotUnarmed eng) (e : Event) :
    CbOut.timedOut ∉ (eng.step e).2 := by
  obtain ⟨os, tmo⟩ := eng
  cases e with
  | submit a c l u =>
    show CbOut.timedOut ∉ (Engine.submit ⟨os, tmo⟩ a c l u).2
    simp only [Engine.submit]
    split_ifs <;> simp
  | receive d =>
    cases os with
    | none => simp [Engine.step, Engine.receive]
    | some t0 =>
      show CbOut.timedOut ∉ (Engine.receive ⟨some t0, tmo⟩ d).2
      simp only [Engine.receive]
      split_ifs <;> first
        | exact dispatchDecode_no_timedOut d (readU8 d 1)
        | simp
  | fireTimeout =>
    cases os with
    | none => simp [Engine.step, Engine.fireTimeout]
    | some t =>
      show CbOut.timedOut ∉ (Engine.fireTimeout ⟨some t, tmo⟩).2
      simp only [Engine.fireTimeout]
      rw [hu t rfl]
      simp

/-- Under a falsy timeout configuration every step preserves the
no-armed-timer invariant. -/
theorem step_unarmed {eng : Engine} (hf : falsyTimeout eng.timeout)
    (hu : slotUnarmed eng) (e : Event) : slotUnarmed (eng.step e).1 := by
  obtain ⟨os, tmo⟩ := eng
  cases e with
  | submit a c l u =>
    intro t ht
    simp only [Engine.step, Engine.submit] at ht
    injection ht with ht
    rw [← ht]
    rw [startTimeoutArms_falsy hf, Bool.and_false]
  | receive d =>
    cases os with
    | none => exact hu
    | some t0 =>
      intro t ht
      show Trans.timeoutArmed t = false
      have hs : (Engine.receive ⟨some t0, tmo⟩ d).1.slot
          = some { t0 with timeoutArmed := false } := by
        simp only [Engine.receive]
        split_ifs <;> rfl
      rw [show (Engine.step ⟨some t0, tmo⟩ (Event.receive d)).1
          = (Engine.receive ⟨some t0, tmo⟩ d).1 from rfl, hs] at ht
      injection ht with ht
      rw [← ht]
  | fireTimeout =>
    cases os with
    | none => exact hu
    | some t =>
      show slotUnarmed (Engine.fireTimeout ⟨some t, tmo⟩).1
      simp only [Engine.fireTimeout]
      rw [hu t rfl]
      simp only [Bool.false_eq_true, if_false]
      exact hu

/-- C9: with a falsy configured timeout duration, no submission arms a
timer even when a response is expected, and no run of the engine from an
unarmed state ever delivers the TransactionTimedOut error. -/
theorem c9_theorem :
    (∀ (eng : Engine) (address code l : Nat) (lenUnknown : Bool) (t : Trans),
      falsyTimeout eng.timeout →
      (eng.submit address code (some l) lenUnknown).1.slot = some t →
      t.timeoutArmed = false)
    ∧ (∀ (eng : Engine) (evs : List Event),
      falsyTimeout eng.timeout → slotUnarmed eng →
      CbOut.timedOut ∉ (eng.run evs).2) := by
  constructor
  · intro eng address code l lenUnknown t hf ht
    simp only [Engine.submit] at ht
    injection ht with ht
    rw [← ht]
    rw [startTimeoutArms_falsy hf, Bool.and_false]
  · intro eng evs
    induction evs generalizing eng with
    | nil => intro _ _; simp [Engine.run]
    | cons e es ih =>
      intro hf hu
      simp only [Engine.run]
      intro hmem
      rcases List.mem_append.mp hmem with hm | hm
      · exact step_no_timedOut hu e hm
      · exact ih (eng.step e).1 (by rw [step_timeout_eq]; exact hf)
          (step_unarmed hf hu e) hm

/-- Witness for `c9_theorem`: timeout `null`, a broadcast-free FC3
submission, and a fire attempt deliver nothing. -/
theorem c9_witness :
    falsyTimeout (Engine.timeout ⟨none, none⟩)
    ∧ slotUnarmed ⟨none, none⟩
    ∧ CbOut.timedOut ∉
        (Engine.run ⟨none, none⟩
          [Event.submit 17 3 (some 9) false, Event.fireTimeout]).2 :=
  ⟨Or.inl rfl, fun _ h => Option.noConfusion h,
    c9_theorem.2 ⟨none, none⟩ [Event.submit 17 3 (some 9) false, Event.fireTimeout]
      (Or.inl rfl) (fun _ h => Option.noConfusion h)⟩

/-! ## C10 — FC1/FC2 decoding returns 8·B booleans, LSB first -/

/-- `bitsOfByte` yields exactly `k` booleans. -/
theorem bitsOfByte_length (reg k : Nat) : (bitsOfByte reg k).length = k := by
  induction k generalizing reg with
  | zero => rfl
  | succ k ih =>
    show (bitsOfByte reg k.succ).length = k + 1
    rw [bitsOfByte, List.length_cons, ih]

/-- The `j`-th boolean of `bitsOfByte reg k` is bit `j` of `reg` (LSB
first). -/
theorem bitsOfByte_getD (k : Nat) : ∀ reg j, j < k →
    (bitsOfByte reg k).getD j false = reg.testBit j := by
  induction k with
  | zero => intro reg j h; omega
  | succ k ih =>
    intro reg j h
    cases j with
    | zero =>
      show decide (reg &&& 1 = 1) = reg.testBit 0
      rw [Nat.and_one_is_mod, Nat.testBit_zero]
    | succ j =>
      show (bitsOfByte (reg >>> 1) k).getD j false = reg.testBit (j + 1)
      rw [ih (reg >>> 1) j (by omega), Nat.testBit_add_one, Nat.shiftRight_one]

/-- `readFC2bits` over `n` bytes yields exactly `8 * n` booleans. -/
theorem readFC2bits_length (data : List Nat) (n : Nat) :
    (readFC2bits data n).length = 8 * n := by
  induction n with
  | zero => rfl
  | succ n ih =>
    show (readFC2bits data n ++ bitsOfByte (readU8 data (n + 3)) 8).length = 8 * (n + 1)
    rw [List.length_append, ih, bitsOfByte_length]
    omega

/-- Boolean `8 i + j` of the decoded sequence is bit `j` of bitmap byte
`i`. -/
theorem readFC2bits_getD (data : List Nat) : ∀ n i j, i < n → j < 8 →
    (readFC2bits data n).getD (8 * i + j) false = (readU8 data (i + 3)).testBit j := by
  intro n
  induction n with
  | zero => intro i j h _; omega
  | succ n ih =>
    intro i j hi hj
    show ((readFC2bits data n) ++ bitsOfByte (readU8 data (n + 3)) 8).getD
        (8 * i + j) false = _
    by_cases hin : i < n
    · rw [List.getD_append _ _ _ _ (by rw [readFC2bits_length]; omega)]
      exact ih i j hin hj
    · have hieq : i = n := by omega
      subst hieq
      rw [List.getD_append_right _ _ _ _ (by rw [readFC2bits_length]; omega)]
      rw [readFC2bits_length]
      rw [show 8 * i + j - 8 * i = j by omega]
      exact bitsOfByte_getD 8 _ j hj

/-- C10: for every FC1/FC2 response frame with byte count `B` at offset
2, `_readFC2` returns exactly `8 B` booleans, each byte expanded
LSB-first; and whenever the requested quantity is positive and not a
multiple of 8 (so a compliant byte count is `(qty - 1) / 8 + 1`), the
returned sequence is strictly longer than the quantity, the padding bits
trailing. -/
theorem c10_theorem : ∀ (data : List Nat),
    (readFC2 data).data.length = 8 * readU8 data 2
    ∧ (∀ i j, i < readU8 data 2 → j < 8 →
        (readFC2 data).data.getD (8 * i + j) false = (readU8 data (i + 3)).testBit j)
    ∧ (∀ qty, 0 < qty → qty % 8 ≠ 0 → readU8 data 2 = (qty - 1) / 8 + 1 →
        qty < (readFC2 data).data.length) := by
  intro data
  refine ⟨readFC2bits_length data _,
    fun i j hi hj => readFC2bits_getD data _ i j hi hj, ?_⟩
  intro qty h0 h8 hB
  have hlen : (readFC2 data).data.length = 8 * readU8 data 2 :=
    readFC2bits_length data _
  rw [hlen, hB]
  omega

/-- Witness for `c10_theorem`: a 2-byte bitmap response to a 9-coil
request yields 16 booleans, more than the 9 requested. -/
theorem c10_witness :
    (0 : Nat) < 9 ∧ (9 : Nat) % 8 ≠ 0
    ∧ readU8 [17, 1, 2, 0xCD, 0x6B] 2 = (9 - 1) / 8 + 1
    ∧ 9 < (readFC2 [17, 1, 2, 0xCD, 0x6B]).data.length :=
  ⟨by decide, by decide, by decide,
    (c10_theorem [17, 1, 2, 0xCD, 0x6B]).2.2 9 (by decide) (by decide) (by decide)⟩

end ModbusSerial
